import Mathlib

/-!
Verification of the API-key authentication and sliding-window rate-limiting
gate of the name/address validation service (`api/production_main.py`).

The embedding models:
  * the static key registry `API_KEYS`;
  * the shared mutable state (`request_counts`, `usage_stats`) as a
    `ServerState` record of total functions with defaultdict semantics;
  * `APIKeyAuth.verify_api_key` as a state-passing function returning either
    an error (HTTP exception) or the auth payload;
  * the endpoint handlers `validate_names`, `validate_single_address` and
    `batch_validate_addresses` down to the point where they delegate to the
    external validation collaborators (abstracted by boolean parameters
    `service_initialized` / `upstream_ok`);
  * a small-step decomposition of the admission check (`checkStep` /
    `commitStep`) used to analyse concurrent interleavings: the source
    performs the limit comparison (line 126) and the append (line 139) as
    separate unsynchronized operations on shared state.
-/

/-- Tier metadata for one API key (the dictionaries stored in `API_KEYS`). -/
structure UserInfo where
  name : String
  tier : String
  requests_per_minute : Nat
  max_addresses_per_request : Nat
  features : List String
deriving DecidableEq

def demoInfo : UserInfo :=
  { name := "Demo User"
    tier := "demo"
    requests_per_minute := 60
    max_addresses_per_request := 100
    features := ["name_validation", "address_validation"] }

def premiumInfo : UserInfo :=
  { name := "Premium User"
    tier := "premium"
    requests_per_minute := 300
    max_addresses_per_request := 1000
    features := ["name_validation", "address_validation", "batch_processing"] }

def enterpriseInfo : UserInfo :=
  { name := "Enterprise User"
    tier := "enterprise"
    requests_per_minute := 1000
    max_addresses_per_request := 5000
    features := ["name_validation", "address_validation", "batch_processing",
                 "priority_support"] }

/-- The static key registry (`API_KEYS` in the source, lines 63-85). -/
def API_KEYS : List (String × UserInfo) :=
  [("demo-key-12345", demoInfo),
   ("premium-key-67890", premiumInfo),
   ("enterprise-key-abc123", enterpriseInfo)]

/-- Membership test / lookup on the registry (`api_key in API_KEYS`,
`API_KEYS[api_key]`). -/
def lookupKey (k : String) : Option UserInfo :=
  (API_KEYS.find? (fun p => p.1 == k)).map (·.2)

/-- The per-key lifetime counters (`usage_stats` defaultdict values,
lines 89-95). -/
structure UsageStats where
  total_requests : Nat
  successful_requests : Nat
  failed_requests : Nat
  addresses_processed : Nat
  names_processed : Nat
deriving DecidableEq

/-- The zero-initialised counters produced by the defaultdict factory. -/
def zeroStats : UsageStats :=
  { total_requests := 0
    successful_requests := 0
    failed_requests := 0
    addresses_processed := 0
    names_processed := 0 }

/-- The shared mutable server state: `request_counts` (per-key timestamp
lists, defaultdict with default `[]`) and `usage_stats` (per-key counters,
defaultdict with default `zeroStats`).  Timestamps are integers standing for
`time.time()` values. -/
structure ServerState where
  request_counts : String → List Int
  usage_stats : String → UsageStats

/-- The state at process start: both defaultdicts empty. -/
def initState : ServerState :=
  { request_counts := fun _ => []
    usage_stats := fun _ => zeroStats }

/-- Line 122: keep exactly the timestamps with `now - req_time < 60`
(strict inequality), i.e. prune every timestamp that is 60 seconds old or
older. -/
def prune (now : Int) (w : List Int) : List Int :=
  w.filter (fun t => decide (now - t < 60))

/-- The failure taxonomy of the service, as raised via `HTTPException`. -/
inductive RequestError where
  | invalidKey
  | rateLimited (current_usage : Nat) (limit : Nat) (retry_after : Nat)
  | serviceUnavailable
  | featureNotEntitled (feature : String)
  | tooManyFiles
  | fileNotCsv (filename : String)
  | unreadableCsv (filename : String)
  | batchLimitExceeded (total_records : Nat) (max_addresses : Nat)
  | upstreamFailure
deriving DecidableEq

/-- The HTTP status code each failure is raised with in the source. -/
def httpStatus : RequestError → Nat
  | .invalidKey => 401
  | .rateLimited _ _ _ => 429
  | .serviceUnavailable => 503
  | .featureNotEntitled _ => 403
  | .tooManyFiles => 400
  | .fileNotCsv _ => 400
  | .unreadableCsv _ => 400
  | .batchLimitExceeded _ _ => 400
  | .upstreamFailure => 500

deriving instance DecidableEq for Except

/-- The dictionary returned by `verify_api_key` on success (lines 142-147). -/
structure AuthSuccess where
  api_key : String
  user_info : UserInfo
  current_usage : Nat
  rate_limit : Nat
deriving DecidableEq

/-- `APIKeyAuth.verify_api_key` (lines 100-147).  Returns the auth payload or
the raised `HTTPException`, together with the updated shared state:

  * unknown key: raise 401 before any shared state is touched (lines 105-113);
  * prune the key's window in place (line 122) — the pruned list persists
    even when the request is then rejected;
  * at or above the limit: raise 429 carrying the pruned length (lines
    126-136);
  * otherwise append `now`, bump `total_requests`, and return the payload
    whose `current_usage` is the post-append window length (lines 139-147). -/
def verify_api_key (st : ServerState) (api_key : String) (now : Int) :
    Except RequestError AuthSuccess × ServerState :=
  match lookupKey api_key with
  | none => (.error .invalidKey, st)
  | some user_info =>
    let user_requests := prune now (st.request_counts api_key)
    let rate_limit := user_info.requests_per_minute
    if user_requests.length ≥ rate_limit then
      (.error (.rateLimited user_requests.length rate_limit 60),
       { st with
         request_counts := Function.update st.request_counts api_key user_requests })
    else
      let appended := user_requests ++ [now]
      (.ok { api_key := api_key
             user_info := user_info
             current_usage := appended.length
             rate_limit := rate_limit },
       { st with
         request_counts := Function.update st.request_counts api_key appended
         usage_stats := Function.update st.usage_stats api_key
           (let s := st.usage_stats api_key
            { s with total_requests := s.total_requests + 1 }) })

/-- `POST /api/validate-names` (lines 216-262).  The FastAPI dependency
`verify_api_key` runs first; then the 503 service check, then the
`name_validation` feature check, then the delegated validation call whose
outcome is abstracted by `upstream_ok`.  On success `names_processed` and
`successful_requests` are bumped; an escaping exception bumps
`failed_requests` and re-raises as a 500. -/
def validate_names (st : ServerState) (api_key : String) (now : Int)
    (num_names : Nat) (service_initialized : Bool) (upstream_ok : Bool) :
    Except RequestError Unit × ServerState :=
  match verify_api_key st api_key now with
  | (.error e, st1) => (.error e, st1)
  | (.ok auth, st1) =>
    if ¬ service_initialized then (.error .serviceUnavailable, st1)
    else if "name_validation" ∉ auth.user_info.features then
      (.error (.featureNotEntitled "name_validation"), st1)
    else if upstream_ok then
      (.ok (),
       { st1 with
         usage_stats := Function.update st1.usage_stats api_key
           (let s := st1.usage_stats api_key
            { s with names_processed := s.names_processed + num_names
                     successful_requests := s.successful_requests + 1 }) })
    else
      (.error .upstreamFailure,
       { st1 with
         usage_stats := Function.update st1.usage_stats api_key
           (let s := st1.usage_stats api_key
            { s with failed_requests := s.failed_requests + 1 }) })

/-- `POST /api/validate-address` (lines 268-342), abstracted the same way as
`validate_names`: auth dependency, 503 check, `address_validation` feature
check, then the categorisation/USPS work whose outcome is `upstream_ok`.
(The inner USPS try/except never escapes, so only the outer handler's
success/failure accounting is modelled.) -/
def validate_single_address (st : ServerState) (api_key : String) (now : Int)
    (service_initialized : Bool) (upstream_ok : Bool) :
    Except RequestError Unit × ServerState :=
  match verify_api_key st api_key now with
  | (.error e, st1) => (.error e, st1)
  | (.ok auth, st1) =>
    if ¬ service_initialized then (.error .serviceUnavailable, st1)
    else if "address_validation" ∉ auth.user_info.features then
      (.error (.featureNotEntitled "address_validation"), st1)
    else if upstream_ok then
      (.ok (),
       { st1 with
         usage_stats := Function.update st1.usage_stats api_key
           (let s := st1.usage_stats api_key
            { s with addresses_processed := s.addresses_processed + 1
                     successful_requests := s.successful_requests + 1 }) })
    else
      (.error .upstreamFailure,
       { st1 with
         usage_stats := Function.update st1.usage_stats api_key
           (let s := st1.usage_stats api_key
            { s with failed_requests := s.failed_requests + 1 }) })

/-- An uploaded file as seen by the batch endpoint's pre-validation pass:
its filename, whether `pd.read_csv` succeeds on it, and how many records it
holds. -/
structure BatchFile where
  filename : String
  readable : Bool
  record_count : Nat
deriving DecidableEq

/-- Python's `str.endswith(suffix)`, modelled on the character list. -/
def strEndsWith (s suffix : String) : Bool :=
  suffix.data.isSuffixOf s.data

/-- The pre-validation loop of the batch endpoint (lines 377-388): each file
must have a `.csv` filename and be readable; record counts are summed.  The
first offending file aborts the request with a 400. -/
def preScanFiles : List BatchFile → Except RequestError Nat
  | [] => .ok 0
  | f :: rest =>
    if ¬ strEndsWith f.filename ".csv" then .error (.fileNotCsv f.filename)
    else if ¬ f.readable then .error (.unreadableCsv f.filename)
    else
      match preScanFiles rest with
      | .error e => .error e
      | .ok n => .ok (f.record_count + n)

/-- `POST /api/batch-validate-addresses` (lines 348-578): auth dependency,
503 check, `batch_processing` feature check, the 10-file cap (line 372), the
per-file pre-validation (`preScanFiles`), the per-tier total-record cap
(lines 391-400), and then the processing phase whose outcome is abstracted
by `upstream_ok` (success bumps `addresses_processed` by the total record
count and `successful_requests`; an escaping exception bumps
`failed_requests` and re-raises as 500). -/
def batch_validate_addresses (st : ServerState) (api_key : String) (now : Int)
    (files : List BatchFile) (service_initialized : Bool) (upstream_ok : Bool) :
    Except RequestError Nat × ServerState :=
  match verify_api_key st api_key now with
  | (.error e, st1) => (.error e, st1)
  | (.ok auth, st1) =>
    if ¬ service_initialized then (.error .serviceUnavailable, st1)
    else if "batch_processing" ∉ auth.user_info.features then
      (.error (.featureNotEntitled "batch_processing"), st1)
    else if files.length > 10 then (.error .tooManyFiles, st1)
    else
      match preScanFiles files with
      | .error e => (.error e, st1)
      | .ok total_records =>
        let max_addresses := auth.user_info.max_addresses_per_request
        if total_records > max_addresses then
          (.error (.batchLimitExceeded total_records max_addresses), st1)
        else if upstream_ok then
          (.ok total_records,
           { st1 with
             usage_stats := Function.update st1.usage_stats api_key
               (let s := st1.usage_stats api_key
                { s with
                  addresses_processed := s.addresses_processed + total_records
                  successful_requests := s.successful_requests + 1 }) })
        else
          (.error .upstreamFailure,
           { st1 with
             usage_stats := Function.update st1.usage_stats api_key
               (let s := st1.usage_stats api_key
                { s with failed_requests := s.failed_requests + 1 }) })

/-!
### Small-step decomposition of the admission check

`verify_api_key` runs in a worker thread per request (it is a synchronous
FastAPI dependency), and takes no lock.  Its effect on shared state
decomposes into two separately-executed steps:

  * `checkStep`: the in-place prune of line 122 followed by the limit
    comparison of line 126, returning the admission decision computed from
    the window length observed at that moment;
  * `commitStep`: the append of line 139 and the `total_requests` bump of
    line 140, executed only when the earlier decision was to admit (the
    reject path raises inside the check and performs no further writes).

Because the list object is shared, the append acts on the window as it is
at commit time.  Interleaving the steps of two concurrent requests exposes
the check-then-act race. -/
def checkStep (st : ServerState) (api_key : String) (now : Int) :
    ServerState × Bool :=
  match lookupKey api_key with
  | none => (st, false)
  | some user_info =>
    let user_requests := prune now (st.request_counts api_key)
    ({ st with
       request_counts := Function.update st.request_counts api_key user_requests },
     decide (user_requests.length < user_info.requests_per_minute))

/-- Second half of the split admission check: on an admit decision, append
`now` to the (current) shared window and bump `total_requests`; on a reject
decision the source raises and writes nothing further. -/
def commitStep (st : ServerState) (api_key : String) (now : Int)
    (admitted : Bool) : ServerState :=
  if admitted then
    { st with
      request_counts := Function.update st.request_counts api_key
        (st.request_counts api_key ++ [now])
      usage_stats := Function.update st.usage_stats api_key
        (let s := st.usage_stats api_key
         { s with total_requests := s.total_requests + 1 }) }
  else st

/-- A serialized burst: run the (atomic) admission check `n` times in
sequence for one key at one instant, counting admissions and rejections. -/
def burst (api_key : String) (now : Int) : Nat → ServerState → ServerState × Nat × Nat
  | 0, st => (st, 0, 0)
  | n + 1, st =>
    match verify_api_key st api_key now with
    | (.ok _, st1) =>
      let r := burst api_key now n st1
      (r.1, r.2.1 + 1, r.2.2)
    | (.error _, st1) =>
      let r := burst api_key now n st1
      (r.1, r.2.1, r.2.2 + 1)

/-- One authenticated operation of the service, as far as shared state is
concerned.  `authOnly` covers `GET /api-info` and `GET /api/usage-stats`,
which run the auth dependency and only read the counters. -/
inductive Operation where
  | authOnly (api_key : String) (now : Int)
  | names (api_key : String) (now : Int) (num_names : Nat) (svc ok : Bool)
  | address (api_key : String) (now : Int) (svc ok : Bool)
  | batch (api_key : String) (now : Int) (files : List BatchFile) (svc ok : Bool)

/-- The state transformation of one operation. -/
def runOp (op : Operation) (st : ServerState) : ServerState :=
  match op with
  | .authOnly k now => (verify_api_key st k now).2
  | .names k now n svc ok => (validate_names st k now n svc ok).2
  | .address k now svc ok => (validate_single_address st k now svc ok).2
  | .batch k now files svc ok => (batch_validate_addresses st k now files svc ok).2

/-- A (serialized) execution: run a list of operations in order. -/
def runOps (ops : List Operation) (st : ServerState) : ServerState :=
  ops.foldl (fun s op => runOp op s) st

/-- Pointwise order on the lifetime counters. -/
def statsLe (a b : UsageStats) : Prop :=
  a.total_requests ≤ b.total_requests ∧
  a.successful_requests ≤ b.successful_requests ∧
  a.failed_requests ≤ b.failed_requests ∧
  a.addresses_processed ≤ b.addresses_processed ∧
  a.names_processed ≤ b.names_processed

instance (a b : UsageStats) : Decidable (statsLe a b) := by
  unfold statsLe; infer_instance

/-! ### Characterisation of `verify_api_key` -/

lemma verify_eq_of_none (st : ServerState) (k : String) (now : Int)
    (h : lookupKey k = none) :
    verify_api_key st k now = (.error .invalidKey, st) := by
  unfold verify_api_key
  rw [h]

lemma verify_eq_of_reject (st : ServerState) (k : String) (now : Int)
    (ui : UserInfo) (h : lookupKey k = some ui)
    (hl : ui.requests_per_minute ≤ (prune now (st.request_counts k)).length) :
    verify_api_key st k now =
      (.error (.rateLimited (prune now (st.request_counts k)).length
          ui.requests_per_minute 60),
       { st with
         request_counts :=
           Function.update st.request_counts k (prune now (st.request_counts k)) }) := by
  unfold verify_api_key
  rw [h]
  simp only [ge_iff_le, hl, if_true]

lemma verify_eq_admitted (st : ServerState) (k : String) (now : Int)
    (ui : UserInfo) (h : lookupKey k = some ui)
    (hl : (prune now (st.request_counts k)).length < ui.requests_per_minute) :
    verify_api_key st k now =
      (.ok { api_key := k
             user_info := ui
             current_usage := (prune now (st.request_counts k)).length + 1
             rate_limit := ui.requests_per_minute },
       { st with
         request_counts := Function.update st.request_counts k
           (prune now (st.request_counts k) ++ [now])
         usage_stats := Function.update st.usage_stats k
           { st.usage_stats k with
             total_requests := (st.usage_stats k).total_requests + 1 } }) := by
  unfold verify_api_key
  rw [h]
  simp only [ge_iff_le, not_le.mpr hl, if_false, List.length_append,
    List.length_singleton]

/-! ### Claim theorems -/

/-- C1: for a registered key with per-minute limit `L`, the admission check
at time `now` prunes exactly the timestamps `t` with `now - t ≥ 60` (strict
inequality as the freshness test, so a timestamp exactly 60 seconds old is
pruned), counts identical timestamps individually (multiplicities are
preserved by the prune), and then: if the pruned length is at least `L` the
request is rejected with window count equal to the pruned length; otherwise
`now` is appended and the reported window count is the pruned length plus
one. -/
theorem c1_sliding_window_admission (st : ServerState) (k : String) (now : Int)
    (ui : UserInfo) (h : lookupKey k = some ui) :
    (∀ t : Int, t ∈ prune now (st.request_counts k) ↔
       t ∈ st.request_counts k ∧ now - t < 60) ∧
    (∀ t : Int, now - t < 60 →
       (prune now (st.request_counts k)).count t = (st.request_counts k).count t) ∧
    (if ui.requests_per_minute ≤ (prune now (st.request_counts k)).length then
       (verify_api_key st k now).1 =
         .error (.rateLimited (prune now (st.request_counts k)).length
           ui.requests_per_minute 60) ∧
       ((verify_api_key st k now).2).request_counts k =
         prune now (st.request_counts k)
     else
       (verify_api_key st k now).1 =
         .ok { api_key := k
               user_info := ui
               current_usage := (prune now (st.request_counts k)).length + 1
               rate_limit := ui.requests_per_minute } ∧
       ((verify_api_key st k now).2).request_counts k =
         prune now (st.request_counts k) ++ [now]) := by
  refine ⟨?_, ?_, ?_⟩
  · intro t
    simp [prune, List.mem_filter]
  · intro t ht
    exact List.count_filter (decide_eq_true ht)
  · by_cases hl : ui.requests_per_minute ≤ (prune now (st.request_counts k)).length
    · rw [if_pos hl, verify_eq_of_reject st k now ui h hl]
      exact ⟨rfl, Function.update_same ..⟩
    · rw [if_neg hl, verify_eq_admitted st k now ui h (not_le.mp hl)]
      exact ⟨rfl, Function.update_same ..⟩

def c1WitnessState : ServerState :=
  { request_counts := Function.update (fun _ => []) "demo-key-12345"
      [(0 : Int), 10, 10]
    usage_stats := fun _ => zeroStats }

theorem c1_sliding_window_admission_witness :
    lookupKey "demo-key-12345" = some demoInfo ∧
    ((∀ t : Int, t ∈ prune 60 (c1WitnessState.request_counts "demo-key-12345") ↔
        t ∈ c1WitnessState.request_counts "demo-key-12345" ∧ 60 - t < 60) ∧
     (∀ t : Int, 60 - t < 60 →
        (prune 60 (c1WitnessState.request_counts "demo-key-12345")).count t =
          (c1WitnessState.request_counts "demo-key-12345").count t) ∧
     (if demoInfo.requests_per_minute ≤
          (prune 60 (c1WitnessState.request_counts "demo-key-12345")).length then
        (verify_api_key c1WitnessState "demo-key-12345" 60).1 =
          .error (.rateLimited
            (prune 60 (c1WitnessState.request_counts "demo-key-12345")).length
            demoInfo.requests_per_minute 60) ∧
        ((verify_api_key c1WitnessState "demo-key-12345" 60).2).request_counts
            "demo-key-12345" =
          prune 60 (c1WitnessState.request_counts "demo-key-12345")
      else
        (verify_api_key c1WitnessState "demo-key-12345" 60).1 =
          .ok { api_key := "demo-key-12345"
                user_info := demoInfo
                current_usage :=
                  (prune 60 (c1WitnessState.request_counts "demo-key-12345")).length + 1
                rate_limit := demoInfo.requests_per_minute } ∧
        ((verify_api_key c1WitnessState "demo-key-12345" 60).2).request_counts
            "demo-key-12345" =
          prune 60 (c1WitnessState.request_counts "demo-key-12345") ++ [60])) :=
  ⟨rfl, c1_sliding_window_admission c1WitnessState "demo-key-12345" 60 demoInfo rfl⟩

/-- C4: a token absent from the key registry fails with `InvalidKey`
(HTTP 401) and the whole shared state is returned unchanged: no rate window
is created or mutated and no usage counter is incremented. -/
theorem c4_invalid_key_no_mutation (st : ServerState) (k : String) (now : Int)
    (h : lookupKey k = none) :
    verify_api_key st k now = (.error .invalidKey, st) ∧
    httpStatus .invalidKey = 401 :=
  ⟨verify_eq_of_none st k now h, rfl⟩

theorem c4_invalid_key_no_mutation_witness :
    lookupKey "not-a-key" = none ∧
    (verify_api_key initState "not-a-key" 0 = (.error .invalidKey, initState) ∧
     httpStatus .invalidKey = 401) :=
  ⟨rfl, c4_invalid_key_no_mutation initState "not-a-key" 0 rfl⟩

/-- C5: when a registered key's admission check rejects, the error is
`RateLimited` carrying exactly the pruned window length as the current
usage, the key's requests-per-minute limit, and a fixed retry-after of 60
seconds, and it is raised with HTTP status 429. -/
theorem c5_rate_limited_payload (st : ServerState) (k : String) (now : Int)
    (ui : UserInfo) (h : lookupKey k = some ui)
    (hl : ui.requests_per_minute ≤ (prune now (st.request_counts k)).length) :
    (verify_api_key st k now).1 =
      .error (.rateLimited (prune now (st.request_counts k)).length
        ui.requests_per_minute 60) ∧
    httpStatus (.rateLimited (prune now (st.request_counts k)).length
      ui.requests_per_minute 60) = 429 := by
  rw [verify_eq_of_reject st k now ui h hl]
  exact ⟨rfl, rfl⟩

def c5WitnessState : ServerState :=
  { request_counts := Function.update (fun _ => []) "demo-key-12345"
      (List.replicate 60 (0 : Int))
    usage_stats := fun _ => zeroStats }

theorem c5_rate_limited_payload_witness :
    (lookupKey "demo-key-12345" = some demoInfo ∧
     demoInfo.requests_per_minute ≤
       (prune 0 (c5WitnessState.request_counts "demo-key-12345")).length) ∧
    ((verify_api_key c5WitnessState "demo-key-12345" 0).1 =
       .error (.rateLimited
         (prune 0 (c5WitnessState.request_counts "demo-key-12345")).length
         demoInfo.requests_per_minute 60) ∧
     httpStatus (.rateLimited
       (prune 0 (c5WitnessState.request_counts "demo-key-12345")).length
       demoInfo.requests_per_minute 60) = 429) :=
  ⟨⟨rfl, by decide⟩,
   c5_rate_limited_payload c5WitnessState "demo-key-12345" 0 demoInfo rfl (by decide)⟩

/-- C9: after a completed admission check for a registered key at time
`now`, every timestamp remaining in that key's rate window satisfies
`now - timestamp < 60`: the invariant is re-established by the lazy prune,
and the appended `now` satisfies it trivially. -/
theorem c9_window_freshness (st : ServerState) (k : String) (now : Int)
    (ui : UserInfo) (h : lookupKey k = some ui) :
    ∀ t ∈ ((verify_api_key st k now).2).request_counts k, now - t < 60 := by
  intro t ht
  by_cases hl : ui.requests_per_minute ≤ (prune now (st.request_counts k)).length
  · rw [verify_eq_of_reject st k now ui h hl] at ht
    simp only [Function.update_same] at ht
    exact of_decide_eq_true (List.mem_filter.mp ht).2
  · rw [verify_eq_admitted st k now ui h (not_le.mp hl)] at ht
    simp only [Function.update_same, List.mem_append, List.mem_singleton] at ht
    rcases ht with ht | rfl
    · exact of_decide_eq_true (List.mem_filter.mp ht).2
    · omega

theorem c9_window_freshness_witness :
    lookupKey "demo-key-12345" = some demoInfo ∧
    ∀ t ∈ ((verify_api_key c1WitnessState "demo-key-12345" 60).2).request_counts
        "demo-key-12345", (60 : Int) - t < 60 :=
  ⟨rfl, c9_window_freshness c1WitnessState "demo-key-12345" 60 demoInfo rfl⟩

/-- C10: a rejecting admission check only shrinks the key's rate window
(the new window is the pruned one, a sublist of the old) and leaves every
usage counter unchanged; and every `current_usage` value returned with an
admitted decision satisfies `1 ≤ current_usage ≤ limit`. -/
theorem c10_reject_frame_admit_bounds (st : ServerState) (k : String)
    (now : Int) (ui : UserInfo) (h : lookupKey k = some ui) :
    (∀ c l ra, (verify_api_key st k now).1 = .error (.rateLimited c l ra) →
       ((verify_api_key st k now).2).request_counts k =
         prune now (st.request_counts k) ∧
       (((verify_api_key st k now).2).request_counts k).Sublist
         (st.request_counts k) ∧
       ((verify_api_key st k now).2).usage_stats = st.usage_stats) ∧
    (∀ a : AuthSuccess, (verify_api_key st k now).1 = .ok a →
       1 ≤ a.current_usage ∧ a.current_usage ≤ ui.requests_per_minute) := by
  by_cases hl : ui.requests_per_minute ≤ (prune now (st.request_counts k)).length
  · rw [verify_eq_of_reject st k now ui h hl]
    constructor
    · intro c l ra _
      refine ⟨Function.update_same .., ?_, rfl⟩
      simp only [Function.update_same]
      exact List.filter_sublist _
    · intro a ha
      exact absurd ha (by simp)
  · rw [verify_eq_admitted st k now ui h (not_le.mp hl)]
    constructor
    · intro c l ra hc
      exact absurd hc (by simp)
    · intro a ha
      obtain rfl : _ = a := Except.ok.inj ha
      refine ⟨Nat.succ_le_succ (Nat.zero_le _), ?_⟩
      exact Nat.succ_le_of_lt (not_le.mp hl)

/-- C3 fails on the code as stated: the demo key is registered but lacks
`batch_processing`; probing the batch endpoint from the initial state does
raise `FeatureNotEntitled`, yet the rate window for the key has gained the
probe's timestamp and `total_requests` has been incremented, because the
auth dependency consumes the rate slot before the handler's feature check
runs. -/
theorem c3_feature_probe_counterexample :
    (batch_validate_addresses initState "demo-key-12345" 0 [] true true).1 =
      .error (.featureNotEntitled "batch_processing") ∧
    ((batch_validate_addresses initState "demo-key-12345" 0 [] true
        true).2).request_counts "demo-key-12345" = [0] ∧
    (((batch_validate_addresses initState "demo-key-12345" 0 [] true
        true).2).usage_stats "demo-key-12345").total_requests = 1 :=
  ⟨rfl, rfl, rfl⟩

/-- C3 (amended): a request presenting a registered key to an endpoint
whose required feature is absent from the key's feature set fails with
`FeatureNotEntitled` (HTTP 403), but the feature check happens *after*
rate-limit consumption: when the admission check admits, the rejected probe
has appended its timestamp to the key's rate window and incremented
`total_requests` (while `failed_requests` is unchanged). -/
theorem c3_feature_check_after_rate_consumption (st : ServerState)
    (k : String) (now : Int) (files : List BatchFile) (ui : UserInfo)
    (h : lookupKey k = some ui)
    (hf : "batch_processing" ∉ ui.features)
    (hl : (prune now (st.request_counts k)).length < ui.requests_per_minute) :
    (batch_validate_addresses st k now files true true).1 =
      .error (.featureNotEntitled "batch_processing") ∧
    httpStatus (.featureNotEntitled "batch_processing") = 403 ∧
    ((batch_validate_addresses st k now files true true).2).request_counts k =
      prune now (st.request_counts k) ++ [now] ∧
    (((batch_validate_addresses st k now files true true).2).usage_stats
        k).total_requests = (st.usage_stats k).total_requests + 1 ∧
    (((batch_validate_addresses st k now files true true).2).usage_stats
        k).failed_requests = (st.usage_stats k).failed_requests := by
  have hadm := verify_eq_admitted st k now ui h hl
  simp only [batch_validate_addresses, hadm]
  simp [hf, Function.update_same, httpStatus]

def c3WitnessKey : String := "demo-key-12345"

theorem c3_feature_check_after_rate_consumption_witness :
    (lookupKey c3WitnessKey = some demoInfo ∧
     "batch_processing" ∉ demoInfo.features ∧
     (prune 0 (initState.request_counts c3WitnessKey)).length <
       demoInfo.requests_per_minute) ∧
    ((batch_validate_addresses initState c3WitnessKey 0 [] true true).1 =
       .error (.featureNotEntitled "batch_processing") ∧
     httpStatus (.featureNotEntitled "batch_processing") = 403 ∧
     ((batch_validate_addresses initState c3WitnessKey 0 [] true
         true).2).request_counts c3WitnessKey =
       prune 0 (initState.request_counts c3WitnessKey) ++ [0] ∧
     (((batch_validate_addresses initState c3WitnessKey 0 [] true
         true).2).usage_stats c3WitnessKey).total_requests =
       (initState.usage_stats c3WitnessKey).total_requests + 1 ∧
     (((batch_validate_addresses initState c3WitnessKey 0 [] true
         true).2).usage_stats c3WitnessKey).failed_requests =
       (initState.usage_stats c3WitnessKey).failed_requests) :=
  ⟨⟨rfl, by decide, by decide⟩,
   c3_feature_check_after_rate_consumption initState c3WitnessKey 0 [] demoInfo
     rfl (by decide) (by decide)⟩

/-! ### C6: failure accounting -/

lemma verify_preserves_stats (st : ServerState) (k : String) (now : Int)
    (k' : String) :
    (((verify_api_key st k now).2).usage_stats k').successful_requests =
      (st.usage_stats k').successful_requests ∧
    (((verify_api_key st k now).2).usage_stats k').failed_requests =
      (st.usage_stats k').failed_requests ∧
    (((verify_api_key st k now).2).usage_stats k').addresses_processed =
      (st.usage_stats k').addresses_processed ∧
    (((verify_api_key st k now).2).usage_stats k').names_processed =
      (st.usage_stats k').names_processed := by
  cases hk : lookupKey k with
  | none =>
    rw [verify_eq_of_none st k now hk]
    exact ⟨rfl, rfl, rfl, rfl⟩
  | some ui =>
    by_cases hl : ui.requests_per_minute ≤ (prune now (st.request_counts k)).length
    · rw [verify_eq_of_reject st k now ui hk hl]
      exact ⟨rfl, rfl, rfl, rfl⟩
    · rw [verify_eq_admitted st k now ui hk (not_le.mp hl)]
      by_cases hk2 : k' = k
      · subst hk2
        simp [Function.update_same]
      · simp [Function.update_noteq hk2]

lemma verify_not_upstream (st : ServerState) (k : String) (now : Int) :
    (verify_api_key st k now).1 ≠ .error .upstreamFailure := by
  cases hk : lookupKey k with
  | none =>
    rw [verify_eq_of_none st k now hk]
    simp
  | some ui =>
    by_cases hl : ui.requests_per_minute ≤ (prune now (st.request_counts k)).length
    · rw [verify_eq_of_reject st k now ui hk hl]
      simp
    · rw [verify_eq_admitted st k now ui hk (not_le.mp hl)]
      simp

lemma names_failed_delta (st : ServerState) (k : String) (now : Int)
    (n : Nat) (svc ok : Bool) (k' : String) :
    (((validate_names st k now n svc ok).2).usage_stats k').failed_requests =
      (st.usage_stats k').failed_requests +
        (if (validate_names st k now n svc ok).1 = .error .upstreamFailure ∧ k' = k
         then 1 else 0) := by
  rcases hv : verify_api_key st k now with ⟨res, st1⟩
  have hpres : (st1.usage_stats k').failed_requests =
      (st.usage_stats k').failed_requests := by
    have hx := (verify_preserves_stats st k now k').2.1
    rw [hv] at hx
    exact hx
  have hnu : res ≠ .error .upstreamFailure := by
    have hx := verify_not_upstream st k now
    rw [hv] at hx
    exact hx
  cases res with
  | error e =>
    have hne : e ≠ RequestError.upstreamFailure := fun he => hnu (by rw [he])
    simp [validate_names, hv, hpres, hne]
  | ok auth =>
    simp only [validate_names, hv]
    split
    · simp [hpres]
    split
    · simp [hpres]
    split
    · by_cases hk : k' = k
      · subst hk
        simp [Function.update_same, hpres]
      · simp [Function.update_noteq hk, hpres]
    · by_cases hk : k' = k
      · subst hk
        simp [Function.update_same, hpres]
      · simp [Function.update_noteq hk, hpres, hk]

lemma address_failed_delta (st : ServerState) (k : String) (now : Int)
    (svc ok : Bool) (k' : String) :
    (((validate_single_address st k now svc ok).2).usage_stats k').failed_requests =
      (st.usage_stats k').failed_requests +
        (if (validate_single_address st k now svc ok).1 = .error .upstreamFailure ∧ k' = k
         then 1 else 0) := by
  rcases hv : verify_api_key st k now with ⟨res, st1⟩
  have hpres : (st1.usage_stats k').failed_requests =
      (st.usage_stats k').failed_requests := by
    have hx := (verify_preserves_stats st k now k').2.1
    rw [hv] at hx
    exact hx
  have hnu : res ≠ .error .upstreamFailure := by
    have hx := verify_not_upstream st k now
    rw [hv] at hx
    exact hx
  cases res with
  | error e =>
    have hne : e ≠ RequestError.upstreamFailure := fun he => hnu (by rw [he])
    simp [validate_single_address, hv, hpres, hne]
  | ok auth =>
    simp only [validate_single_address, hv]
    split
    · simp [hpres]
    split
    · simp [hpres]
    split
    · by_cases hk : k' = k
      · subst hk
        simp [Function.update_same, hpres]
      · simp [Function.update_noteq hk, hpres]
    · by_cases hk : k' = k
      · subst hk
        simp [Function.update_same, hpres]
      · simp [Function.update_noteq hk, hpres, hk]

lemma preScan_not_upstream (files : List BatchFile) :
    preScanFiles files ≠ .error RequestError.upstreamFailure := by
  induction files with
  | nil => simp [preScanFiles]
  | cons f rest ih =>
    simp only [preScanFiles]
    split
    · simp
    split
    · simp
    cases hps : preScanFiles rest with
    | error e =>
      simp only [hps]
      intro hcon
      exact ih (by rw [hps, Except.error.inj hcon])
    | ok m => simp [hps]

lemma batch_failed_delta (st : ServerState) (k : String) (now : Int)
    (files : List BatchFile) (svc ok : Bool) (k' : String) :
    (((batch_validate_addresses st k now files svc ok).2).usage_stats k').failed_requests =
      (st.usage_stats k').failed_requests +
        (if (batch_validate_addresses st k now files svc ok).1 = .error .upstreamFailure ∧ k' = k
         then 1 else 0) := by
  rcases hv : verify_api_key st k now with ⟨res, st1⟩
  have hpres : (st1.usage_stats k').failed_requests =
      (st.usage_stats k').failed_requests := by
    have hx := (verify_preserves_stats st k now k').2.1
    rw [hv] at hx
    exact hx
  have hnu : res ≠ .error .upstreamFailure := by
    have hx := verify_not_upstream st k now
    rw [hv] at hx
    exact hx
  cases res with
  | error e =>
    have hne : e ≠ RequestError.upstreamFailure := fun he => hnu (by rw [he])
    simp [batch_validate_addresses, hv, hpres, hne]
  | ok auth =>
    simp only [batch_validate_addresses, hv]
    split
    · simp [hpres]
    split
    · simp [hpres]
    split
    · simp [hpres]
    cases hps : preScanFiles files with
    | error e =>
      have hne2 : e ≠ RequestError.upstreamFailure := fun he =>
        preScan_not_upstream files (by rw [hps, he])
      simp [hps, hpres, hne2]
    | ok total =>
      simp only [hps]
      split
      · simp [hpres]
      split
      · by_cases hk : k' = k
        · subst hk
          simp [Function.update_same, hpres]
        · simp [Function.update_noteq hk, hpres]
      · by_cases hk : k' = k
        · subst hk
          simp [Function.update_same, hpres]
        · simp [Function.update_noteq hk, hpres, hk]

/-- C6 fails on the code as stated: a request with an unknown key fails
with `InvalidKey`, yet the failed-requests counter for the presented token
is not incremented at all (it stays at 0 from the initial state), because
`failed_requests` is only touched by the handlers' exception paths. -/
theorem c6_failure_counter_counterexample :
    (validate_names initState "unknown-key" 0 1 true true).1 =
      .error .invalidKey ∧
    (((validate_names initState "unknown-key" 0 1 true true).2).usage_stats
        "unknown-key").failed_requests = 0 :=
  ⟨rfl, rfl⟩

/-- C6 (amended): across the modelled endpoints, the failed-requests
counter of the presented key is incremented exactly once when and only when
the request fails with `UpstreamValidationFailure` (an exception escaping
the business logic, re-raised as HTTP 500); every other failure in the
taxonomy — `InvalidKey`, `FeatureNotEntitled`, `RateLimited`,
`BatchLimitExceeded`, `DependencyUnavailable`, malformed files — leaves
`failed_requests` (of every key) unchanged. -/
theorem c6_failed_requests_only_on_upstream_failure (st : ServerState)
    (k k' : String) (now : Int) (n : Nat) (files : List BatchFile)
    (svc ok : Bool) :
    ((((validate_names st k now n svc ok).2).usage_stats k').failed_requests =
       (st.usage_stats k').failed_requests +
         (if (validate_names st k now n svc ok).1 = .error .upstreamFailure ∧ k' = k
          then 1 else 0)) ∧
    ((((validate_single_address st k now svc ok).2).usage_stats k').failed_requests =
       (st.usage_stats k').failed_requests +
         (if (validate_single_address st k now svc ok).1 = .error .upstreamFailure ∧ k' = k
          then 1 else 0)) ∧
    ((((batch_validate_addresses st k now files svc ok).2).usage_stats k').failed_requests =
       (st.usage_stats k').failed_requests +
         (if (batch_validate_addresses st k now files svc ok).1 = .error .upstreamFailure ∧ k' = k
          then 1 else 0)) :=
  ⟨names_failed_delta st k now n svc ok k',
   address_failed_delta st k now svc ok k',
   batch_failed_delta st k now files svc ok k'⟩

/-- C7: for a batch request whose key is registered, admitted by the rate
limiter, and entitled to `batch_processing`, with readable CSV files whose
record counts sum to `total`: more than 10 files is rejected with HTTP 400;
a total above the key's per-tier cap is rejected with `BatchLimitExceeded`
(HTTP 400) before any business-logic processing (neither
`addresses_processed` nor `successful_requests` moves); and a total at or
below the cap proceeds to processing. -/
theorem c7_batch_gates (st : ServerState) (k : String) (now : Int)
    (ui : UserInfo) (files : List BatchFile) (total : Nat)
    (h : lookupKey k = some ui)
    (hfeat : "batch_processing" ∈ ui.features)
    (hl : (prune now (st.request_counts k)).length < ui.requests_per_minute)
    (hscan : preScanFiles files = .ok total) :
    (files.length > 10 →
       (batch_validate_addresses st k now files true true).1 =
         .error .tooManyFiles ∧
       httpStatus .tooManyFiles = 400) ∧
    (files.length ≤ 10 → ui.max_addresses_per_request < total →
       (batch_validate_addresses st k now files true true).1 =
         .error (.batchLimitExceeded total ui.max_addresses_per_request) ∧
       httpStatus (.batchLimitExceeded total ui.max_addresses_per_request) = 400 ∧
       (((batch_validate_addresses st k now files true true).2).usage_stats
           k).addresses_processed = (st.usage_stats k).addresses_processed ∧
       (((batch_validate_addresses st k now files true true).2).usage_stats
           k).successful_requests = (st.usage_stats k).successful_requests) ∧
    (files.length ≤ 10 → total ≤ ui.max_addresses_per_request →
       (batch_validate_addresses st k now files true true).1 = .ok total) := by
  have hadm := verify_eq_admitted st k now ui h hl
  have hpres := verify_preserves_stats st k now k
  rw [hadm] at hpres
  refine ⟨?_, ?_, ?_⟩
  · intro hn
    simp only [batch_validate_addresses, hadm]
    constructor
    · simp [hfeat, hn]
    · rfl
  · intro hn hcap
    simp only [batch_validate_addresses, hadm]
    refine ⟨?_, rfl, ?_, ?_⟩
    · simp [hfeat, Nat.not_lt.mpr hn, hscan, hcap]
    · simp [hfeat, Nat.not_lt.mpr hn, hscan, hcap]
    · simp [hfeat, Nat.not_lt.mpr hn, hscan, hcap]
  · intro hn hcap
    simp only [batch_validate_addresses, hadm]
    simp [hfeat, Nat.not_lt.mpr hn, hscan, Nat.not_lt.mpr hcap]

def c7WitnessFiles : List BatchFile :=
  [{ filename := "addresses.csv", readable := true, record_count := 3 }]

theorem c7_batch_gates_witness :
    (lookupKey "premium-key-67890" = some premiumInfo ∧
     "batch_processing" ∈ premiumInfo.features ∧
     (prune 0 (initState.request_counts "premium-key-67890")).length <
       premiumInfo.requests_per_minute ∧
     preScanFiles c7WitnessFiles = .ok 3) ∧
    ((c7WitnessFiles.length > 10 →
        (batch_validate_addresses initState "premium-key-67890" 0
            c7WitnessFiles true true).1 = .error .tooManyFiles ∧
        httpStatus .tooManyFiles = 400) ∧
     (c7WitnessFiles.length ≤ 10 →
        premiumInfo.max_addresses_per_request < 3 →
        (batch_validate_addresses initState "premium-key-67890" 0
            c7WitnessFiles true true).1 =
          .error (.batchLimitExceeded 3 premiumInfo.max_addresses_per_request) ∧
        httpStatus (.batchLimitExceeded 3 premiumInfo.max_addresses_per_request) = 400 ∧
        (((batch_validate_addresses initState "premium-key-67890" 0
            c7WitnessFiles true true).2).usage_stats
            "premium-key-67890").addresses_processed =
          (initState.usage_stats "premium-key-67890").addresses_processed ∧
        (((batch_validate_addresses initState "premium-key-67890" 0
            c7WitnessFiles true true).2).usage_stats
            "premium-key-67890").successful_requests =
          (initState.usage_stats "premium-key-67890").successful_requests) ∧
     (c7WitnessFiles.length ≤ 10 →
        3 ≤ premiumInfo.max_addresses_per_request →
        (batch_validate_addresses initState "premium-key-67890" 0
            c7WitnessFiles true true).1 = .ok 3)) :=
  ⟨⟨rfl, by decide, by decide, by decide⟩,
   c7_batch_gates initState "premium-key-67890" 0 premiumInfo c7WitnessFiles 3
     rfl (by decide) (by decide) (by decide)⟩

/-! ### C8: monotonicity of the usage counters -/

lemma statsLe_refl (a : UsageStats) : statsLe a a :=
  ⟨le_refl _, le_refl _, le_refl _, le_refl _, le_refl _⟩

lemma statsLe_trans {a b c : UsageStats} (h1 : statsLe a b)
    (h2 : statsLe b c) : statsLe a c :=
  ⟨le_trans h1.1 h2.1, le_trans h1.2.1 h2.2.1, le_trans h1.2.2.1 h2.2.2.1,
   le_trans h1.2.2.2.1 h2.2.2.2.1, le_trans h1.2.2.2.2 h2.2.2.2.2⟩

lemma usage_update_mono (f : String → UsageStats) (k k' : String)
    (v : UsageStats) (h : statsLe (f k) v) :
    statsLe (f k') (Function.update f k v k') := by
  by_cases hk : k' = k
  · subst hk
    rw [Function.update_same]
    exact h
  · rw [Function.update_noteq hk]
    exact statsLe_refl _

lemma verify_usage_mono (st : ServerState) (k : String) (now : Int)
    (k' : String) :
    statsLe (st.usage_stats k') (((verify_api_key st k now).2).usage_stats k') := by
  cases hk : lookupKey k with
  | none =>
    rw [verify_eq_of_none st k now hk]
    exact statsLe_refl _
  | some ui =>
    by_cases hl : ui.requests_per_minute ≤ (prune now (st.request_counts k)).length
    · rw [verify_eq_of_reject st k now ui hk hl]
      exact statsLe_refl _
    · rw [verify_eq_admitted st k now ui hk (not_le.mp hl)]
      exact usage_update_mono st.usage_stats k k' _
        ⟨Nat.le_succ _, le_refl _, le_refl _, le_refl _, le_refl _⟩

lemma names_usage_mono (st : ServerState) (k : String) (now : Int) (n : Nat)
    (svc ok : Bool) (k' : String) :
    statsLe (st.usage_stats k')
      (((validate_names st k now n svc ok).2).usage_stats k') := by
  rcases hv : verify_api_key st k now with ⟨res, st1⟩
  have h1 : statsLe (st.usage_stats k') (st1.usage_stats k') := by
    have hx := verify_usage_mono st k now k'
    rwa [hv] at hx
  cases res with
  | error e =>
    simp only [validate_names, hv]
    exact h1
  | ok auth =>
    simp only [validate_names, hv]
    split
    · exact h1
    split
    · exact h1
    split
    · exact statsLe_trans h1 (usage_update_mono st1.usage_stats k k' _
        ⟨le_refl _, Nat.le_succ _, le_refl _, le_refl _, Nat.le_add_right _ _⟩)
    · exact statsLe_trans h1 (usage_update_mono st1.usage_stats k k' _
        ⟨le_refl _, le_refl _, Nat.le_succ _, le_refl _, le_refl _⟩)

lemma address_usage_mono (st : ServerState) (k : String) (now : Int)
    (svc ok : Bool) (k' : String) :
    statsLe (st.usage_stats k')
      (((validate_single_address st k now svc ok).2).usage_stats k') := by
  rcases hv : verify_api_key st k now with ⟨res, st1⟩
  have h1 : statsLe (st.usage_stats k') (st1.usage_stats k') := by
    have hx := verify_usage_mono st k now k'
    rwa [hv] at hx
  cases res with
  | error e =>
    simp only [validate_single_address, hv]
    exact h1
  | ok auth =>
    simp only [validate_single_address, hv]
    split
    · exact h1
    split
    · exact h1
    split
    · exact statsLe_trans h1 (usage_update_mono st1.usage_stats k k' _
        ⟨le_refl _, Nat.le_succ _, le_refl _, Nat.le_succ _, le_refl _⟩)
    · exact statsLe_trans h1 (usage_update_mono st1.usage_stats k k' _
        ⟨le_refl _, le_refl _, Nat.le_succ _, le_refl _, le_refl _⟩)

lemma batch_usage_mono (st : ServerState) (k : String) (now : Int)
    (files : List BatchFile) (svc ok : Bool) (k' : String) :
    statsLe (st.usage_stats k')
      (((batch_validate_addresses st k now files svc ok).2).usage_stats k') := by
  rcases hv : verify_api_key st k now with ⟨res, st1⟩
  have h1 : statsLe (st.usage_stats k') (st1.usage_stats k') := by
    have hx := verify_usage_mono st k now k'
    rwa [hv] at hx
  cases res with
  | error e =>
    simp only [batch_validate_addresses, hv]
    exact h1
  | ok auth =>
    simp only [batch_validate_addresses, hv]
    split
    · exact h1
    split
    · exact h1
    split
    · exact h1
    cases hps : preScanFiles files with
    | error e =>
      simp only [hps]
      exact h1
    | ok total =>
      simp only [hps]
      split
      · exact h1
      split
      · exact statsLe_trans h1 (usage_update_mono st1.usage_stats k k' _
          ⟨le_refl _, Nat.le_succ _, le_refl _, Nat.le_add_right _ _, le_refl _⟩)
      · exact statsLe_trans h1 (usage_update_mono st1.usage_stats k k' _
          ⟨le_refl _, le_refl _, Nat.le_succ _, le_refl _, le_refl _⟩)

lemma runOp_usage_mono (op : Operation) (st : ServerState) (k : String) :
    statsLe (st.usage_stats k) ((runOp op st).usage_stats k) := by
  cases op with
  | authOnly key now => exact verify_usage_mono st key now k
  | names key now n svc ok => exact names_usage_mono st key now n svc ok k
  | address key now svc ok => exact address_usage_mono st key now svc ok k
  | batch key now files svc ok => exact batch_usage_mono st key now files svc ok k

lemma runOps_usage_mono (ops : List Operation) (st : ServerState) (k : String) :
    statsLe (st.usage_stats k) ((runOps ops st).usage_stats k) := by
  induction ops generalizing st with
  | nil => exact statsLe_refl _
  | cons op rest ih =>
    exact statsLe_trans (runOp_usage_mono op st k) (ih (runOp op st))

/-- C8: along any serialized execution of the modelled operations, every
lifetime usage counter of every key is monotonically non-decreasing —
observing the state after `i` operations and after `j ≥ i` operations, each
counter at the later point is at least its value at the earlier point. -/
theorem c8_usage_counters_monotonic (ops : List Operation) (st : ServerState)
    (k : String) (i j : Nat) (hij : i ≤ j) :
    statsLe ((runOps (List.take i ops) st).usage_stats k)
      ((runOps (List.take j ops) st).usage_stats k) := by
  have hsplit : List.take j ops =
      List.take i ops ++ List.drop i (List.take j ops) := by
    conv_lhs => rw [← List.take_append_drop i (List.take j ops)]
    rw [List.take_take, min_eq_left hij]
  rw [hsplit]
  unfold runOps
  rw [List.foldl_append]
  exact runOps_usage_mono (List.drop i (List.take j ops))
    (runOps (List.take i ops) st) k

theorem c8_usage_counters_monotonic_witness :
    0 ≤ 1 ∧
    statsLe ((runOps (List.take 0 [Operation.names "demo-key-12345" 0 2 true true])
          initState).usage_stats "demo-key-12345")
      ((runOps (List.take 1 [Operation.names "demo-key-12345" 0 2 true true])
          initState).usage_stats "demo-key-12345") :=
  ⟨Nat.zero_le 1,
   c8_usage_counters_monotonic [Operation.names "demo-key-12345" 0 2 true true]
     initState "demo-key-12345" 0 1 (Nat.zero_le 1)⟩

/-! ### C2: concurrency of the admission check -/

lemma prune_replicate (now : Int) (m : Nat) :
    prune now (List.replicate m now) = List.replicate m now := by
  apply List.filter_eq_self.mpr
  intro a ha
  rw [List.eq_of_mem_replicate ha]
  simp

lemma burst_spec (k : String) (now : Int) (ui : UserInfo)
    (h : lookupKey k = some ui) :
    ∀ (n m : Nat) (st : ServerState),
      st.request_counts k = List.replicate m now →
      (burst k now n st).2.1 = min n (ui.requests_per_minute - m) ∧
      (burst k now n st).2.2 = n - (ui.requests_per_minute - m) := by
  intro n
  induction n with
  | zero =>
    intro m st _
    simp [burst]
  | succ n ih =>
    intro m st hw
    have hp : prune now (st.request_counts k) = List.replicate m now := by
      rw [hw, prune_replicate]
    have hlen : (prune now (st.request_counts k)).length = m := by
      rw [hp, List.length_replicate]
    by_cases hl : ui.requests_per_minute ≤ m
    · have hrej := verify_eq_of_reject st k now ui h (by omega)
      have ihm := ih m
        { st with
          request_counts :=
            Function.update st.request_counts k (prune now (st.request_counts k)) }
        (by simp [Function.update_same, hp])
      simp only [burst, hrej]
      rcases ihm with ⟨ih1, ih2⟩
      constructor <;> omega
    · have hadm := verify_eq_admitted st k now ui h (by omega)
      have ihm := ih (m + 1)
        { st with
          request_counts := Function.update st.request_counts k
            (prune now (st.request_counts k) ++ [now])
          usage_stats := Function.update st.usage_stats k
            { st.usage_stats k with
              total_requests := (st.usage_stats k).total_requests + 1 } }
        (by simp [Function.update_same, hp, List.replicate_succ'])
      simp only [burst, hadm]
      dsimp only at ihm ⊢
      rcases ihm with ⟨ih1, ih2⟩
      constructor <;> omega

/-- C2 counterexample: the admission check takes no lock, and its limit
comparison (line 126) and append (line 139) are separate operations on
shared state.  Interleaving two requests for the demo key (limit 60) from a
window already holding 59 fresh timestamps — check A, check B, commit B,
commit A — admits both, leaving 61 admitted timestamps inside one trailing
60-second window, which exceeds the limit. -/
def raceInit : ServerState :=
  { request_counts := Function.update (fun _ => []) "demo-key-12345"
      (List.replicate 59 (0 : Int))
    usage_stats := fun _ => zeroStats }

def raceAfterCheckA : ServerState × Bool := checkStep raceInit "demo-key-12345" 0

def raceAfterCheckB : ServerState × Bool :=
  checkStep raceAfterCheckA.1 "demo-key-12345" 0

def raceAfterCommitB : ServerState :=
  commitStep raceAfterCheckB.1 "demo-key-12345" 0 raceAfterCheckB.2

def raceFinal : ServerState :=
  commitStep raceAfterCommitB "demo-key-12345" 0 raceAfterCheckA.2

/-- C2 fails on the code as stated: under the interleaving
check A / check B / commit B / commit A, both concurrent requests are
admitted and the demo key's window ends with 61 fresh timestamps, one more
than the 60-per-minute limit, so a trailing 60-second window holds 61
admissions. -/
theorem c2_concurrent_over_admission_counterexample :
    demoInfo.requests_per_minute = 60 ∧
    raceAfterCheckA.2 = true ∧
    raceAfterCheckB.2 = true ∧
    (raceFinal.request_counts "demo-key-12345").length = 61 ∧
    (∀ t ∈ raceFinal.request_counts "demo-key-12345", (0 : Int) - t < 60) := by
  refine ⟨rfl, rfl, rfl, rfl, by decide⟩

/-- C2 (amended): when the admission checks for one key are executed
serially (each check-and-append runs atomically, which the unlocked source
only achieves in the absence of interleaving), a burst of `2 * L` admission
attempts for a registered key with limit `L`, starting from an empty
window, results in exactly `L` admissions and `L` rejections. -/
theorem c2_serialized_burst_exact (st : ServerState) (k : String) (now : Int)
    (ui : UserInfo) (h : lookupKey k = some ui)
    (hw : st.request_counts k = []) :
    (burst k now (2 * ui.requests_per_minute) st).2.1 =
      ui.requests_per_minute ∧
    (burst k now (2 * ui.requests_per_minute) st).2.2 =
      ui.requests_per_minute := by
  have hspec := burst_spec k now ui h (2 * ui.requests_per_minute) 0 st
    (by simpa using hw)
  rcases hspec with ⟨h1, h2⟩
  constructor <;> omega

theorem c2_serialized_burst_exact_witness :
    (lookupKey "demo-key-12345" = some demoInfo ∧
     initState.request_counts "demo-key-12345" = []) ∧
    ((burst "demo-key-12345" 0 (2 * demoInfo.requests_per_minute) initState).2.1 =
       demoInfo.requests_per_minute ∧
     (burst "demo-key-12345" 0 (2 * demoInfo.requests_per_minute) initState).2.2 =
       demoInfo.requests_per_minute) :=
  ⟨⟨rfl, rfl⟩, c2_serialized_burst_exact initState "demo-key-12345" 0 demoInfo rfl rfl⟩

theorem c10_reject_frame_admit_bounds_witness :
    lookupKey "demo-key-12345" = some demoInfo ∧
    ((∀ c l ra, (verify_api_key c5WitnessState "demo-key-12345" 0).1 =
          .error (.rateLimited c l ra) →
        ((verify_api_key c5WitnessState "demo-key-12345" 0).2).request_counts
            "demo-key-12345" =
          prune 0 (c5WitnessState.request_counts "demo-key-12345") ∧
        (((verify_api_key c5WitnessState "demo-key-12345" 0).2).request_counts
            "demo-key-12345").Sublist
          (c5WitnessState.request_counts "demo-key-12345") ∧
        ((verify_api_key c5WitnessState "demo-key-12345" 0).2).usage_stats =
          c5WitnessState.usage_stats) ∧
     (∀ a : AuthSuccess,
        (verify_api_key c5WitnessState "demo-key-12345" 0).1 = .ok a →
        1 ≤ a.current_usage ∧ a.current_usage ≤ demoInfo.requests_per_minute)) :=
  ⟨rfl, c10_reject_frame_admit_bounds c5WitnessState "demo-key-12345" 0 demoInfo rfl⟩
